import Mathlib

/-!
Shallow embedding of the audible-abs-sync core (reconciliation engine,
watchlist, durable store) and proofs of the specification claims.

Positions and timestamps are modelled as rationals (`ℚ`); Python's
millisecond integers as `ℤ`.  Python `int(x)` on a float truncates toward
zero, modelled by `truncToward0`.
-/

namespace AbsSync

/-- Python `int(q)`: truncation toward zero. -/
def truncToward0 (q : ℚ) : ℤ := if 0 ≤ q then ⌊q⌋ else ⌈q⌉

/-- The configuration fields the core reads (src/config.py, class Settings). -/
structure Settings where
  SYNC_TOLERANCE_SECONDS : ℚ
  SYNC_COOLDOWN_SECONDS : ℚ
  SYNC_CONFLICT_MIN_TIME_DELTA_SECONDS : ℚ
  ONE_WAY_MODE : String
  WATCHLIST_MAX_SIZE : Nat
  PERSIST_ENABLED : Bool
deriving DecidableEq

/-- src/models.py, class SyncStatus (per-item sync state). -/
structure SyncStatus where
  asin : String
  last_seen_audible_position_ms : ℤ
  last_seen_abs_position_s : ℚ
  last_change_detected_audible_at : ℚ
  last_change_detected_abs_at : ℚ
  last_pushed_to_audible_at : ℚ
  last_pushed_to_abs_at : ℚ
  last_sync_result : String
  error_count : ℤ
deriving DecidableEq

/-- A fresh `SyncStatus(asin=asin)` with pydantic defaults. -/
def SyncStatus.fresh (asin : String) : SyncStatus :=
  ⟨asin, 0, 0, 0, 0, 0, 0, "ok", 0⟩

/-- src/models.py, class SyncItem (transient per-call input). -/
structure SyncItem where
  asin : String
  audible_pos_s : Option ℚ := none
  abs_pos_s : Option ℚ := none
  duration_s : Option ℚ := none
  abs_item_id : Option String := none
  audible_updated_at : ℚ := 0
  abs_updated_at : ℚ := 0

/-- src/models.py, class SyncState (the persisted aggregate).  The Python
`Dict[str, SyncStatus]` is insertion ordered; it is modelled as an
association list. -/
structure SyncState where
  watchlist : List String
  items : List (String × SyncStatus)
  last_library_discovery : ℚ
  last_deep_scan : ℚ
  last_successful_sync : ℚ
deriving DecidableEq

/-- Pydantic defaults of `SyncState()`. -/
def SyncState.empty : SyncState := ⟨[], [], 0, 0, 0⟩

/-! ### Reconciliation engine (src/engine.py, SyncEngine.sync_item)

`sync_item` mutates the item's `SyncStatus` in place and returns the pair
`(update_audible_to_ms, update_abs_to_s)`.  The embedding threads the
status explicitly: the result is `(new status, push pair)`. -/

/-- Step 1 of `sync_item` (engine.py lines 37-54): change detection.
Returns `(audible_changed, abs_changed, updated status)`.  For the ABS side
the detection timestamp is `item.abs_updated_at or now` (Python `or`:
`now` when the field is falsy, i.e. zero). -/
def detectChanges (s : Settings) (now : ℚ) (item : SyncItem) (status : SyncStatus)
    (current_audible_ms : Option ℤ) (current_abs_s : Option ℚ) :
    Bool × Bool × SyncStatus :=
  let r1 : Bool × SyncStatus :=
    match current_audible_ms with
    | none => (false, status)
    | some ms =>
      if |(ms : ℚ) / 1000 - (status.last_seen_audible_position_ms : ℚ) / 1000|
          > s.SYNC_TOLERANCE_SECONDS then
        (true, { status with
                   last_change_detected_audible_at := now
                   last_seen_audible_position_ms := ms })
      else (false, status)
  let st1 := r1.2
  let r2 : Bool × SyncStatus :=
    match current_abs_s with
    | none => (false, st1)
    | some p =>
      if |p - st1.last_seen_abs_position_s| > s.SYNC_TOLERANCE_SECONDS then
        (true, { st1 with
                   last_change_detected_abs_at :=
                     if item.abs_updated_at = 0 then now else item.abs_updated_at
                   last_seen_abs_position_s := p })
      else (false, st1)
  (r1.1, r2.1, r2.2)

/-- Step 3 of `sync_item` (engine.py lines 69-113): bidirectional
resolution of the raw push targets `(target_audible, target_abs)` before
cooldown filtering. -/
def resolveTargets (s : Settings) (st2 : SyncStatus) (audible_changed abs_changed : Bool)
    (current_audible_ms : Option ℤ) (current_abs_s : Option ℚ) :
    Option ℤ × Option ℚ :=
  if audible_changed && !abs_changed then
    match current_abs_s, current_audible_ms with
    | some _, some ms => (none, some ((ms : ℚ) / 1000))
    | _, _ => (none, none)
  else if abs_changed && !audible_changed then
    match current_audible_ms, current_abs_s with
    | some _, some p => (some (truncToward0 (p * 1000)), none)
    | _, _ => (none, none)
  else if audible_changed && abs_changed then
    match current_audible_ms, current_abs_s with
    | some ms, some p =>
      let time_diff := st2.last_change_detected_audible_at - st2.last_change_detected_abs_at
      if |time_diff| ≥ s.SYNC_CONFLICT_MIN_TIME_DELTA_SECONDS then
        if time_diff > 0 then (none, some ((ms : ℚ) / 1000))
        else (some (truncToward0 (p * 1000)), none)
      else
        if (ms : ℚ) / 1000 > p then (none, some ((ms : ℚ) / 1000))
        else (some (truncToward0 (p * 1000)), none)
    | _, _ => (none, none)
  else (none, none)

/-- Step 4 of `sync_item` for the Audible side (engine.py lines 118-126):
cooldown filter.  A suppressed push leaves the status untouched; a push
surviving because the cooldown window has elapsed stamps
`last_pushed_to_audible_at := now`. -/
def cooldownAudible (s : Settings) (now : ℚ) (st : SyncStatus) (target : Option ℤ) :
    SyncStatus × Option ℤ :=
  match target with
  | none => (st, none)
  | some t =>
    if now - st.last_pushed_to_audible_at < s.SYNC_COOLDOWN_SECONDS then
      if |t - st.last_seen_audible_position_ms| < 300000 then (st, none)
      else (st, some t)
    else ({ st with last_pushed_to_audible_at := now }, some t)

/-- Step 4 of `sync_item` for the ABS side (engine.py lines 129-136). -/
def cooldownAbs (s : Settings) (now : ℚ) (st : SyncStatus) (target : Option ℚ) :
    SyncStatus × Option ℚ :=
  match target with
  | none => (st, none)
  | some t =>
    if now - st.last_pushed_to_abs_at < s.SYNC_COOLDOWN_SECONDS then
      if |t - st.last_seen_abs_position_s| < 300 then (st, none)
      else (st, some t)
    else ({ st with last_pushed_to_abs_at := now }, some t)

/-- src/engine.py, `SyncEngine.sync_item` (lines 24-141).  Returns the
updated `SyncStatus` together with `(update_audible_to_ms, update_abs_to_s)`. -/
def sync_item (s : Settings) (now : ℚ) (item : SyncItem) (status : SyncStatus)
    (current_audible_ms : Option ℤ) (current_abs_s : Option ℚ) :
    SyncStatus × Option ℤ × Option ℚ :=
  let audible_pos_s : Option ℚ := current_audible_ms.map (fun ms => (ms : ℚ) / 1000)
  let r := detectChanges s now item status current_audible_ms current_abs_s
  let audible_changed := r.1
  let abs_changed := r.2.1
  let st2 := r.2.2
  if !audible_changed && !abs_changed then (st2, none, none)
  else if s.ONE_WAY_MODE = "audible_to_abs" then
    if audible_changed && current_abs_s.isSome then (st2, none, audible_pos_s)
    else (st2, none, none)
  else if s.ONE_WAY_MODE = "abs_to_audible" then
    match abs_changed, current_abs_s, audible_pos_s with
    | true, some p, some _ => (st2, some (truncToward0 (p * 1000)), none)
    | _, _, _ => (st2, none, none)
  else
    let t := resolveTargets s st2 audible_changed abs_changed current_audible_ms current_abs_s
    let r3 := cooldownAudible s now st2 t.1
    let r4 := cooldownAbs s now r3.1 t.2
    (r4.1, r3.2, r4.2)

/-! ### Helper lemmas -/

theorem cooldownAudible_none (s : Settings) (now : ℚ) (st : SyncStatus) :
    cooldownAudible s now st none = (st, none) := rfl

theorem cooldownAbs_none (s : Settings) (now : ℚ) (st : SyncStatus) :
    cooldownAbs s now st none = (st, none) := rfl

theorem resolveTargets_at_most_one (s : Settings) (st2 : SyncStatus) (ac bc : Bool)
    (cam : Option ℤ) (cas : Option ℚ) :
    (resolveTargets s st2 ac bc cam cas).1 = none ∨
    (resolveTargets s st2 ac bc cam cas).2 = none := by
  unfold resolveTargets
  repeat' split
  all_goals simp
  all_goals (split <;> (try split) <;> simp)

/-- C1: on every call, at most one side of the returned push pair is
non-none. -/
theorem sync_item_at_most_one_push (s : Settings) (now : ℚ) (item : SyncItem)
    (status : SyncStatus) (cam : Option ℤ) (cas : Option ℚ) :
    (sync_item s now item status cam cas).2.1 = none ∨
    (sync_item s now item status cam cas).2.2 = none := by
  rcases hd : detectChanges s now item status cam cas with ⟨ac, bc, st2⟩
  simp only [sync_item, hd]
  split
  · simp
  · split
    · split <;> simp
    · split
      · split <;> simp
      · rcases resolveTargets_at_most_one s st2 ac bc cam cas with h | h
        · left
          simp only [h, cooldownAudible_none]
        · right
          simp only [h, cooldownAbs_none]

/-- C6: when, on each side, the reading is unknown or within tolerance of
the stored last-seen position, `sync_item` returns `(none, none)` and the
stored status (last-seen positions, detection timestamps, everything) is
unchanged. -/
theorem sync_item_noop (s : Settings) (now : ℚ) (item : SyncItem) (status : SyncStatus)
    (cam : Option ℤ) (cas : Option ℚ)
    (hA : ∀ ms : ℤ, cam = some ms →
      |(ms : ℚ) / 1000 - (status.last_seen_audible_position_ms : ℚ) / 1000|
        ≤ s.SYNC_TOLERANCE_SECONDS)
    (hB : ∀ p : ℚ, cas = some p →
      |p - status.last_seen_abs_position_s| ≤ s.SYNC_TOLERANCE_SECONDS) :
    sync_item s now item status cam cas = (status, none, none) := by
  have hd : detectChanges s now item status cam cas = (false, false, status) := by
    unfold detectChanges
    rcases cam with _ | ms <;> rcases cas with _ | p
    · simp
    · simp [not_lt.mpr (hB _ rfl)]
    · simp [not_lt.mpr (hA _ rfl)]
    · simp [not_lt.mpr (hA _ rfl), not_lt.mpr (hB _ rfl)]
  simp [sync_item, hd]

/-- Witness for C6 at a concrete input. -/
theorem sync_item_noop_witness :
    sync_item ⟨5, 60, 30, "bidirectional", 500, true⟩ 1000 { asin := "t" }
      (SyncStatus.fresh "t") (some 1000) (some 2) =
      (SyncStatus.fresh "t", none, none) :=
  sync_item_noop _ _ _ _ _ _
    (fun ms h => by
      simp only [Option.some.injEq] at h
      subst h
      norm_num [SyncStatus.fresh])
    (fun p h => by
      simp only [Option.some.injEq] at h
      subst h
      norm_num [SyncStatus.fresh])

/-- C3: bidirectional mode, exactly one side changed beyond tolerance.
Part 1: Audible changed, ABS within tolerance, ABS position known, ABS not
under cooldown — push Audible's position (seconds) to ABS and nothing to
Audible.  Part 2: Audible changed but ABS unknown — no push at all.
Parts 3 and 4: the symmetric ABS-changed cases (the push to Audible is
`int(abs_pos_s * 1000)`). -/
theorem sync_item_single_side (s : Settings) (now : ℚ) (item : SyncItem)
    (status : SyncStatus) (cam : Option ℤ) (cas : Option ℚ)
    (hm1 : s.ONE_WAY_MODE ≠ "audible_to_abs")
    (hm2 : s.ONE_WAY_MODE ≠ "abs_to_audible") :
    (∀ (ms : ℤ) (p : ℚ), cam = some ms → cas = some p →
      |(ms : ℚ) / 1000 - (status.last_seen_audible_position_ms : ℚ) / 1000|
        > s.SYNC_TOLERANCE_SECONDS →
      |p - status.last_seen_abs_position_s| ≤ s.SYNC_TOLERANCE_SECONDS →
      ¬ (now - status.last_pushed_to_abs_at < s.SYNC_COOLDOWN_SECONDS) →
      (sync_item s now item status cam cas).2 = (none, some ((ms : ℚ) / 1000))) ∧
    (∀ ms : ℤ, cam = some ms → cas = none →
      |(ms : ℚ) / 1000 - (status.last_seen_audible_position_ms : ℚ) / 1000|
        > s.SYNC_TOLERANCE_SECONDS →
      (sync_item s now item status cam cas).2 = (none, none)) ∧
    (∀ (ms : ℤ) (p : ℚ), cam = some ms → cas = some p →
      |(ms : ℚ) / 1000 - (status.last_seen_audible_position_ms : ℚ) / 1000|
        ≤ s.SYNC_TOLERANCE_SECONDS →
      |p - status.last_seen_abs_position_s| > s.SYNC_TOLERANCE_SECONDS →
      ¬ (now - status.last_pushed_to_audible_at < s.SYNC_COOLDOWN_SECONDS) →
      (sync_item s now item status cam cas).2 = (some (truncToward0 (p * 1000)), none)) ∧
    (∀ p : ℚ, cam = none → cas = some p →
      |p - status.last_seen_abs_position_s| > s.SYNC_TOLERANCE_SECONDS →
      (sync_item s now item status cam cas).2 = (none, none)) := by
  refine ⟨?_, ?_, ?_, ?_⟩
  · intro ms p hcam hcas hA hB hcool
    subst hcam; subst hcas
    have hd : detectChanges s now item status (some ms) (some p) =
        (true, false, { status with
                          last_change_detected_audible_at := now
                          last_seen_audible_position_ms := ms }) := by
      unfold detectChanges
      simp [hA, not_lt.mpr hB]
    simp [sync_item, hd, hm1, hm2, resolveTargets, cooldownAudible, cooldownAbs, hcool]
  · intro ms hcam hcas hA
    subst hcam; subst hcas
    have hd : detectChanges s now item status (some ms) none =
        (true, false, { status with
                          last_change_detected_audible_at := now
                          last_seen_audible_position_ms := ms }) := by
      unfold detectChanges
      simp [hA]
    simp [sync_item, hd, hm1, hm2, resolveTargets, cooldownAudible, cooldownAbs]
  · intro ms p hcam hcas hA hB hcool
    subst hcam; subst hcas
    have hd : detectChanges s now item status (some ms) (some p) =
        (false, true, { status with
                          last_change_detected_abs_at :=
                            if item.abs_updated_at = 0 then now else item.abs_updated_at
                          last_seen_abs_position_s := p }) := by
      unfold detectChanges
      simp [not_lt.mpr hA, hB]
    simp [sync_item, hd, hm1, hm2, resolveTargets, cooldownAudible, cooldownAbs, hcool]
  · intro p hcam hcas hB
    subst hcam; subst hcas
    have hd : detectChanges s now item status none (some p) =
        (false, true, { status with
                          last_change_detected_abs_at :=
                            if item.abs_updated_at = 0 then now else item.abs_updated_at
                          last_seen_abs_position_s := p }) := by
      unfold detectChanges
      simp [hB]
    simp [sync_item, hd, hm1, hm2, resolveTargets, cooldownAudible, cooldownAbs]

/-- Witness for C3 at a concrete input: Audible moved 100s → 200s, ABS
still at its last seen 100s, destination known, no cooldown. -/
theorem sync_item_single_side_witness :
    (sync_item ⟨5, 60, 30, "bidirectional", 500, true⟩ 1000 { asin := "t" }
        { SyncStatus.fresh "t" with
            last_seen_audible_position_ms := 100000
            last_seen_abs_position_s := 100 }
        (some 200000) (some 100)).2 = (none, some 200) := by
  have h := (sync_item_single_side ⟨5, 60, 30, "bidirectional", 500, true⟩ 1000
      { asin := "t" }
      { SyncStatus.fresh "t" with
          last_seen_audible_position_ms := 100000
          last_seen_abs_position_s := 100 }
      (some 200000) (some 100) (by decide) (by decide)).1 200000 100 rfl rfl
      (by norm_num [SyncStatus.fresh]) (by norm_num [SyncStatus.fresh])
      (by norm_num [SyncStatus.fresh])
  rw [h]
  norm_num

/-- C2: conflict resolution (both sides changed in the same call, both
positions known, destination not under cooldown).  After detection the
stored timestamps are `now` for Audible and `item.abs_updated_at or now`
for ABS; write `tsB` for the latter and `time_diff = now - tsB`.
If `|time_diff| ≥` the configured minimum delta, the side with the
strictly later detection timestamp wins and its position (unit-converted)
is pushed to the other side, regardless of position order; otherwise the
side with the strictly greater position (in seconds) wins. -/
theorem sync_item_conflict (s : Settings) (now : ℚ) (item : SyncItem)
    (status : SyncStatus) (cam : Option ℤ) (cas : Option ℚ) (ms : ℤ) (p : ℚ)
    (hm1 : s.ONE_WAY_MODE ≠ "audible_to_abs")
    (hm2 : s.ONE_WAY_MODE ≠ "abs_to_audible")
    (hcam : cam = some ms) (hcas : cas = some p)
    (hA : |(ms : ℚ) / 1000 - (status.last_seen_audible_position_ms : ℚ) / 1000|
      > s.SYNC_TOLERANCE_SECONDS)
    (hB : |p - status.last_seen_abs_position_s| > s.SYNC_TOLERANCE_SECONDS) :
    (|now - (if item.abs_updated_at = 0 then now else item.abs_updated_at)|
        ≥ s.SYNC_CONFLICT_MIN_TIME_DELTA_SECONDS →
      now - (if item.abs_updated_at = 0 then now else item.abs_updated_at) > 0 →
      ¬ (now - status.last_pushed_to_abs_at < s.SYNC_COOLDOWN_SECONDS) →
      (sync_item s now item status cam cas).2 = (none, some ((ms : ℚ) / 1000))) ∧
    (|now - (if item.abs_updated_at = 0 then now else item.abs_updated_at)|
        ≥ s.SYNC_CONFLICT_MIN_TIME_DELTA_SECONDS →
      now - (if item.abs_updated_at = 0 then now else item.abs_updated_at) < 0 →
      ¬ (now - status.last_pushed_to_audible_at < s.SYNC_COOLDOWN_SECONDS) →
      (sync_item s now item status cam cas).2 = (some (truncToward0 (p * 1000)), none)) ∧
    (|now - (if item.abs_updated_at = 0 then now else item.abs_updated_at)|
        < s.SYNC_CONFLICT_MIN_TIME_DELTA_SECONDS →
      (ms : ℚ) / 1000 > p →
      ¬ (now - status.last_pushed_to_abs_at < s.SYNC_COOLDOWN_SECONDS) →
      (sync_item s now item status cam cas).2 = (none, some ((ms : ℚ) / 1000))) ∧
    (|now - (if item.abs_updated_at = 0 then now else item.abs_updated_at)|
        < s.SYNC_CONFLICT_MIN_TIME_DELTA_SECONDS →
      p > (ms : ℚ) / 1000 →
      ¬ (now - status.last_pushed_to_audible_at < s.SYNC_COOLDOWN_SECONDS) →
      (sync_item s now item status cam cas).2 = (some (truncToward0 (p * 1000)), none)) := by
  subst hcam; subst hcas
  have hd : detectChanges s now item status (some ms) (some p) =
      (true, true, { status with
                       last_change_detected_audible_at := now
                       last_seen_audible_position_ms := ms
                       last_change_detected_abs_at :=
                         if item.abs_updated_at = 0 then now else item.abs_updated_at
                       last_seen_abs_position_s := p }) := by
    unfold detectChanges
    simp [hA, hB]
  refine ⟨?_, ?_, ?_, ?_⟩
  · intro h1 h2 hcool
    simp [sync_item, hd, hm1, hm2, resolveTargets, cooldownAudible, cooldownAbs,
      hcool, h1, h2]
  · intro h1 h2 hcool
    have h2' : ¬ (0 < now - (if item.abs_updated_at = 0 then now else item.abs_updated_at)) :=
      not_lt.mpr (le_of_lt h2)
    simp [sync_item, hd, hm1, hm2, resolveTargets, cooldownAudible, cooldownAbs,
      hcool, h1, h2']
  · intro h1 h2 hcool
    simp [sync_item, hd, hm1, hm2, resolveTargets, cooldownAudible, cooldownAbs,
      hcool, not_le.mpr h1, h2]
  · intro h1 h2 hcool
    simp [sync_item, hd, hm1, hm2, resolveTargets, cooldownAudible, cooldownAbs,
      hcool, not_le.mpr h1, not_lt.mpr (le_of_lt h2)]

/-- Witness for C2 at a concrete input (the spec's own scenario):
Audible detected now (t=1000), ABS carries an authoritative update stamp
900, so `time_diff = 100 ≥ 30`; Audible wins even though positions would
agree with it here too. -/
theorem sync_item_conflict_witness :
    (sync_item ⟨5, 60, 30, "bidirectional", 500, true⟩ 1000
        { asin := "t", abs_updated_at := 900 }
        { SyncStatus.fresh "t" with
            last_seen_audible_position_ms := 100000
            last_seen_abs_position_s := 100 }
        (some 200000) (some 150)).2 = (none, some 200) := by
  have h := (sync_item_conflict ⟨5, 60, 30, "bidirectional", 500, true⟩ 1000
      { asin := "t", abs_updated_at := 900 }
      { SyncStatus.fresh "t" with
          last_seen_audible_position_ms := 100000
          last_seen_abs_position_s := 100 }
      (some 200000) (some 150) 200000 150 (by decide) (by decide) rfl rfl
      (by norm_num [SyncStatus.fresh]) (by norm_num [SyncStatus.fresh])).1
      (by norm_num) (by norm_num) (by norm_num [SyncStatus.fresh])
  rw [h]
  norm_num

theorem detectChanges_preserves_pushed (s : Settings) (now : ℚ) (item : SyncItem)
    (status : SyncStatus) (cam : Option ℤ) (cas : Option ℚ) :
    (detectChanges s now item status cam cas).2.2.last_pushed_to_audible_at
        = status.last_pushed_to_audible_at ∧
    (detectChanges s now item status cam cas).2.2.last_pushed_to_abs_at
        = status.last_pushed_to_abs_at := by
  unfold detectChanges
  rcases cam with _ | ms <;> rcases cas with _ | p <;>
    (repeat' split) <;> simp_all <;> (repeat' split) <;> simp_all

theorem cooldownAbs_preserves_audible (s : Settings) (now : ℚ) (st : SyncStatus)
    (t : Option ℚ) :
    (cooldownAbs s now st t).1.last_pushed_to_audible_at = st.last_pushed_to_audible_at := by
  unfold cooldownAbs
  rcases t with _ | v <;> (repeat' split) <;> simp

/-- C4: in bidirectional mode, a proposed push whose magnitude (relative to
that side's updated last-seen position) is below the big-change threshold
and whose last push was within the cooldown window is suppressed to `none`,
and the other side's output is exactly the cooldown-filter of its own raw
target, unaffected by the suppression.  The raw targets are the
`resolveTargets` pair `(ta, tb)` computed from the detection result. -/
theorem sync_item_cooldown_suppression (s : Settings) (now : ℚ) (item : SyncItem)
    (status : SyncStatus) (cam : Option ℤ) (cas : Option ℚ)
    (ac bc : Bool) (st2 : SyncStatus)
    (hm1 : s.ONE_WAY_MODE ≠ "audible_to_abs")
    (hm2 : s.ONE_WAY_MODE ≠ "abs_to_audible")
    (hd : detectChanges s now item status cam cas = (ac, bc, st2)) :
    (∀ (v : ℤ) (tb : Option ℚ),
      resolveTargets s st2 ac bc cam cas = (some v, tb) →
      now - st2.last_pushed_to_audible_at < s.SYNC_COOLDOWN_SECONDS →
      |v - st2.last_seen_audible_position_ms| < 300000 →
      (sync_item s now item status cam cas).2.1 = none ∧
      (sync_item s now item status cam cas).2.2 = (cooldownAbs s now st2 tb).2) ∧
    (∀ (ta : Option ℤ) (w : ℚ),
      resolveTargets s st2 ac bc cam cas = (ta, some w) →
      now - st2.last_pushed_to_abs_at < s.SYNC_COOLDOWN_SECONDS →
      |w - st2.last_seen_abs_position_s| < 300 →
      (sync_item s now item status cam cas).2.2 = none ∧
      (sync_item s now item status cam cas).2.1 = (cooldownAudible s now st2 ta).2) := by
  constructor
  · intro v tb hr hcd hmag
    have hnn : ¬ (ac = false ∧ bc = false) := by
      rintro ⟨h1, h2⟩
      subst h1; subst h2
      simp [resolveTargets] at hr
    have hca : cooldownAudible s now st2 (some v) = (st2, none) := by
      unfold cooldownAudible
      simp [hcd, hmag]
    rcases ac <;> rcases bc <;> simp at hnn <;>
      simp [sync_item, hd, hm1, hm2, hr, hca]
  · intro ta w hr hcd hmag
    have hnn : ¬ (ac = false ∧ bc = false) := by
      rintro ⟨h1, h2⟩
      subst h1; subst h2
      simp [resolveTargets] at hr
    have hcb : ∀ st : SyncStatus,
        st.last_pushed_to_abs_at = st2.last_pushed_to_abs_at →
        st.last_seen_abs_position_s = st2.last_seen_abs_position_s →
        cooldownAbs s now st (some w) = (st, none) := by
      intro st h1 h2
      unfold cooldownAbs
      simp [h1, h2, hcd, hmag]
    have hfa : ∀ t : Option ℤ,
        (cooldownAudible s now st2 t).1.last_pushed_to_abs_at = st2.last_pushed_to_abs_at ∧
        (cooldownAudible s now st2 t).1.last_seen_abs_position_s
          = st2.last_seen_abs_position_s := by
      intro t
      unfold cooldownAudible
      rcases t with _ | u <;> (repeat' split) <;> simp
    rcases ac <;> rcases bc <;> simp at hnn <;>
      simp [sync_item, hd, hm1, hm2, hr,
        hcb _ (hfa _).1 (hfa _).2]

def exSettings : Settings := ⟨5, 60, 30, "bidirectional", 500, true⟩

/-- Status used by the C4 witness: last push to Audible at t=990. -/
def exStatusC4 : SyncStatus :=
  { SyncStatus.fresh "t" with last_pushed_to_audible_at := 990 }

/-- Detection result for the C4 witness (ABS moved 0 → 100 at t=1000). -/
def exSt2C4 : SyncStatus :=
  { exStatusC4 with last_change_detected_abs_at := 1000, last_seen_abs_position_s := 100 }

/-- Witness for C4: ABS moved to 100s, the proposed 100000 ms push to
Audible is 10s after the previous push (within the 60s cooldown) and only
100000 ms in magnitude (< 300000), so it is suppressed; the ABS output is
the cooldown filter of its own raw target (`none`). -/
theorem sync_item_cooldown_suppression_witness :
    (sync_item exSettings 1000 { asin := "t" } exStatusC4 (some 0) (some 100)).2.1 = none ∧
    (sync_item exSettings 1000 { asin := "t" } exStatusC4 (some 0) (some 100)).2.2 =
      (cooldownAbs exSettings 1000 exSt2C4 none).2 :=
  (sync_item_cooldown_suppression exSettings 1000 { asin := "t" } exStatusC4
      (some 0) (some 100) false true exSt2C4 (by decide) (by decide)
      (by unfold detectChanges
          norm_num [exSettings, exStatusC4, exSt2C4, SyncStatus.fresh])).1
    100000 none
    (by unfold resolveTargets
        norm_num [exSettings, exSt2C4, exStatusC4, SyncStatus.fresh, truncToward0])
    (by norm_num [exSettings, exSt2C4, exStatusC4, SyncStatus.fresh])
    (by norm_num [exSt2C4, exStatusC4, SyncStatus.fresh])

theorem cooldownAudible_preserves_abs (s : Settings) (now : ℚ) (st : SyncStatus)
    (t : Option ℤ) :
    (cooldownAudible s now st t).1.last_pushed_to_abs_at = st.last_pushed_to_abs_at := by
  unfold cooldownAudible
  rcases t with _ | v <;> (repeat' split) <;> simp

theorem cooldownAudible_stamp (s : Settings) (now : ℚ) (st : SyncStatus)
    (t : Option ℤ) (v : ℤ) (h : (cooldownAudible s now st t).2 = some v) :
    (¬ (now - st.last_pushed_to_audible_at < s.SYNC_COOLDOWN_SECONDS) →
      (cooldownAudible s now st t).1.last_pushed_to_audible_at = now) ∧
    (now - st.last_pushed_to_audible_at < s.SYNC_COOLDOWN_SECONDS →
      (cooldownAudible s now st t).1.last_pushed_to_audible_at
        = st.last_pushed_to_audible_at) := by
  rcases t with _ | u
  · simp [cooldownAudible] at h
  · by_cases hcd : now - st.last_pushed_to_audible_at < s.SYNC_COOLDOWN_SECONDS
    · by_cases hmag : |u - st.last_seen_audible_position_ms| < 300000
      · simp [cooldownAudible, hcd, hmag] at h
      · simp [cooldownAudible, hcd, hmag]
    · simp [cooldownAudible, hcd]

theorem cooldownAbs_stamp (s : Settings) (now : ℚ) (st : SyncStatus)
    (t : Option ℚ) (w : ℚ) (h : (cooldownAbs s now st t).2 = some w) :
    (¬ (now - st.last_pushed_to_abs_at < s.SYNC_COOLDOWN_SECONDS) →
      (cooldownAbs s now st t).1.last_pushed_to_abs_at = now) ∧
    (now - st.last_pushed_to_abs_at < s.SYNC_COOLDOWN_SECONDS →
      (cooldownAbs s now st t).1.last_pushed_to_abs_at = st.last_pushed_to_abs_at) := by
  rcases t with _ | u
  · simp [cooldownAbs] at h
  · by_cases hcd : now - st.last_pushed_to_abs_at < s.SYNC_COOLDOWN_SECONDS
    · by_cases hmag : |u - st.last_seen_abs_position_s| < 300
      · simp [cooldownAbs, hcd, hmag] at h
      · simp [cooldownAbs, hcd, hmag]
    · simp [cooldownAbs, hcd]

/-- C5 counterexample: bidirectional mode, last push to Audible at t=999,
`now = 1000` (within the 60s cooldown); ABS jumps 0 → 400s, the proposed
400000 ms change exceeds the 300000 ms big-change threshold, so the push
IS returned — yet `last_pushed_to_audible_at` stays 999 instead of being
set to `now`, contradicting the claim that every returned push updates the
stamp. -/
theorem sync_item_push_stamp_counterexample :
    (sync_item exSettings 1000 { asin := "t" }
        { SyncStatus.fresh "t" with last_pushed_to_audible_at := 999 }
        (some 0) (some 400)).2.1 = some 400000 ∧
    (sync_item exSettings 1000 { asin := "t" }
        { SyncStatus.fresh "t" with last_pushed_to_audible_at := 999 }
        (some 0) (some 400)).1.last_pushed_to_audible_at = 999 ∧
    (999 : ℚ) ≠ 1000 := by
  have h1 : ¬ ("bidirectional" = "audible_to_abs") := by decide
  have h2 : ¬ ("bidirectional" = "abs_to_audible") := by decide
  refine ⟨?_, ?_, by norm_num⟩ <;>
    norm_num [sync_item, detectChanges, resolveTargets, cooldownAudible, cooldownAbs,
      truncToward0, exSettings, SyncStatus.fresh, h1, h2]

/-- C5 amended: in bidirectional mode, a returned (non-suppressed) push
updates that side's `last_pushed_to_*_at` to `now` when the previous push
is at least the cooldown window old; a push returned despite being within
the cooldown window (the big-change exception) leaves the stamp
unchanged.  Cooldown tracks attempted pushes, before any remote
confirmation. -/
theorem sync_item_push_stamp (s : Settings) (now : ℚ) (item : SyncItem)
    (status : SyncStatus) (cam : Option ℤ) (cas : Option ℚ)
    (hm1 : s.ONE_WAY_MODE ≠ "audible_to_abs")
    (hm2 : s.ONE_WAY_MODE ≠ "abs_to_audible") :
    (∀ v : ℤ, (sync_item s now item status cam cas).2.1 = some v →
      (¬ (now - status.last_pushed_to_audible_at < s.SYNC_COOLDOWN_SECONDS) →
        (sync_item s now item status cam cas).1.last_pushed_to_audible_at = now) ∧
      (now - status.last_pushed_to_audible_at < s.SYNC_COOLDOWN_SECONDS →
        (sync_item s now item status cam cas).1.last_pushed_to_audible_at
          = status.last_pushed_to_audible_at)) ∧
    (∀ w : ℚ, (sync_item s now item status cam cas).2.2 = some w →
      (¬ (now - status.last_pushed_to_abs_at < s.SYNC_COOLDOWN_SECONDS) →
        (sync_item s now item status cam cas).1.last_pushed_to_abs_at = now) ∧
      (now - status.last_pushed_to_abs_at < s.SYNC_COOLDOWN_SECONDS →
        (sync_item s now item status cam cas).1.last_pushed_to_abs_at
          = status.last_pushed_to_abs_at)) := by
  rcases hd : detectChanges s now item status cam cas with ⟨ac, bc, st2⟩
  have hfr := detectChanges_preserves_pushed s now item status cam cas
  rw [hd] at hfr
  obtain ⟨hfa, hfb⟩ := hfr
  by_cases hnoop : (!ac && !bc) = true
  · constructor
    · intro v hv
      simp [sync_item, hd, hnoop] at hv
    · intro w hw
      simp [sync_item, hd, hnoop] at hw
  · have hb : (!ac && !bc) = false := by
      revert hnoop
      cases (!ac && !bc) <;> simp
    have hs : sync_item s now item status cam cas =
        ((cooldownAbs s now
            (cooldownAudible s now st2 (resolveTargets s st2 ac bc cam cas).1).1
            (resolveTargets s st2 ac bc cam cas).2).1,
         (cooldownAudible s now st2 (resolveTargets s st2 ac bc cam cas).1).2,
         (cooldownAbs s now
            (cooldownAudible s now st2 (resolveTargets s st2 ac bc cam cas).1).1
            (resolveTargets s st2 ac bc cam cas).2).2) := by
      simp [sync_item, hd, hb, hm1, hm2]
    rw [hs]
    constructor
    · intro v hv
      have hst := cooldownAudible_stamp s now st2 (resolveTargets s st2 ac bc cam cas).1 v hv
      refine ⟨?_, ?_⟩
      · intro h
        rw [cooldownAbs_preserves_audible]
        exact hst.1 (by rw [hfa]; exact h)
      · intro h
        rw [cooldownAbs_preserves_audible, hst.2 (by rw [hfa]; exact h), hfa]
    · intro w hw
      have hst := cooldownAbs_stamp s now
        (cooldownAudible s now st2 (resolveTargets s st2 ac bc cam cas).1).1
        (resolveTargets s st2 ac bc cam cas).2 w hw
      have hpb : (cooldownAudible s now st2
          (resolveTargets s st2 ac bc cam cas).1).1.last_pushed_to_abs_at
            = status.last_pushed_to_abs_at := by
        rw [cooldownAudible_preserves_abs, hfb]
      refine ⟨?_, ?_⟩
      · intro h
        exact hst.1 (by rw [hpb]; exact h)
      · intro h
        rw [hst.2 (by rw [hpb]; exact h), hpb]

/-- Witness for the amended C5: a push to Audible with the previous push
1000s old (≥ 60s cooldown) stamps `last_pushed_to_audible_at := now`. -/
theorem sync_item_push_stamp_witness :
    (sync_item exSettings 1000 { asin := "t" } (SyncStatus.fresh "t")
        (some 0) (some 400)).1.last_pushed_to_audible_at = 1000 := by
  have h1 : ¬ ("bidirectional" = "audible_to_abs") := by decide
  have h2 : ¬ ("bidirectional" = "abs_to_audible") := by decide
  have hv : (sync_item exSettings 1000 { asin := "t" } (SyncStatus.fresh "t")
      (some 0) (some 400)).2.1 = some 400000 := by
    norm_num [sync_item, detectChanges, resolveTargets, cooldownAudible, cooldownAbs,
      truncToward0, exSettings, SyncStatus.fresh, h1, h2]
  exact ((sync_item_push_stamp exSettings 1000 { asin := "t" } (SyncStatus.fresh "t")
      (some 0) (some 400) (by decide) (by decide)).1 400000 hv).1
    (by norm_num [SyncStatus.fresh, exSettings])

theorem detectChanges_pushed_invariant (s : Settings) (now : ℚ) (item : SyncItem)
    (status : SyncStatus) (cam : Option ℤ) (cas : Option ℚ) (p q : ℚ) :
    detectChanges s now item
        { status with last_pushed_to_audible_at := p, last_pushed_to_abs_at := q } cam cas =
      ((detectChanges s now item status cam cas).1,
       (detectChanges s now item status cam cas).2.1,
       { (detectChanges s now item status cam cas).2.2 with
           last_pushed_to_audible_at := p, last_pushed_to_abs_at := q }) := by
  unfold detectChanges
  rcases cam with _ | ms <;> rcases cas with _ | pp <;>
    simp <;> (repeat' split) <;> simp_all

/-- C10 (implicit): in a fixed one-way mode the call never performs a
cooldown check — the returned push pair does not depend on either
`last_pushed_to_*_at` stamp — and the stamps are never updated by the
call. -/
theorem sync_item_one_way_no_cooldown (s : Settings) (now : ℚ) (item : SyncItem)
    (status : SyncStatus) (cam : Option ℤ) (cas : Option ℚ)
    (hm : s.ONE_WAY_MODE = "audible_to_abs" ∨ s.ONE_WAY_MODE = "abs_to_audible") :
    (sync_item s now item status cam cas).1.last_pushed_to_audible_at
        = status.last_pushed_to_audible_at ∧
    (sync_item s now item status cam cas).1.last_pushed_to_abs_at
        = status.last_pushed_to_abs_at ∧
    ∀ p q : ℚ,
      (sync_item s now item
          { status with last_pushed_to_audible_at := p, last_pushed_to_abs_at := q }
          cam cas).2
        = (sync_item s now item status cam cas).2 := by
  have hne : ¬ ("abs_to_audible" = "audible_to_abs") := by decide
  rcases hd : detectChanges s now item status cam cas with ⟨ac, bc, st2⟩
  have hfr := detectChanges_preserves_pushed s now item status cam cas
  rw [hd] at hfr
  obtain ⟨hfa, hfb⟩ := hfr
  have hinv := detectChanges_pushed_invariant s now item status cam cas
  rw [hd] at hinv
  refine ⟨?_, ?_, ?_⟩
  · rcases hm with hm | hm <;>
      simp [sync_item, hd, hm, hne] <;> (repeat' split) <;> simp_all
  · rcases hm with hm | hm <;>
      simp [sync_item, hd, hm, hne] <;> (repeat' split) <;> simp_all
  · intro p q
    rcases hm with hm | hm <;>
      simp [sync_item, hd, hinv p q, hm, hne] <;> (repeat' split) <;> simp_all

/-- Witness for C10: in `audible_to_abs` mode a push to ABS is returned
with the last ABS push only 1s old and the change small — and the stamps
are untouched. -/
theorem sync_item_one_way_no_cooldown_witness :
    (sync_item ⟨5, 60, 30, "audible_to_abs", 500, true⟩ 1000 { asin := "t" }
        { SyncStatus.fresh "t" with last_pushed_to_abs_at := 999 }
        (some 10000) (some 0)).1.last_pushed_to_audible_at = 0 ∧
    (sync_item ⟨5, 60, 30, "audible_to_abs", 500, true⟩ 1000 { asin := "t" }
        { SyncStatus.fresh "t" with last_pushed_to_abs_at := 999 }
        (some 10000) (some 0)).1.last_pushed_to_abs_at = 999 := by
  have h := sync_item_one_way_no_cooldown ⟨5, 60, 30, "audible_to_abs", 500, true⟩
    1000 { asin := "t" } { SyncStatus.fresh "t" with last_pushed_to_abs_at := 999 }
    (some 10000) (some 0) (Or.inl rfl)
  exact ⟨by rw [h.1]; rfl, by rw [h.2.1]⟩

/-! ### Watchlist (src/state.py, StateManager.update_watchlist) -/

/-- Python `lst[-m:]`: for `m = 0` this is the whole list (`lst[-0:]` is
`lst[0:]`), otherwise the last `m` elements. -/
def pySliceLast (m : Nat) (l : List String) : List String :=
  if m = 0 then l else l.drop (l.length - m)

/-- Python `list.remove(a)`: drop the first occurrence of `a`; `none`
models the `ValueError` raised when `a` is absent. -/
def listRemoveFirst : List String → String → Option (List String)
  | [], _ => none
  | x :: xs, a => if x = a then some xs else (listRemoveFirst xs a).map (x :: ·)

/-- The removal loop of `update_watchlist` (state.py lines 69-71): for each
id in batch order, if it is in the `current` snapshot set, remove its first
occurrence from the working list. -/
def removePresent (current : List String) : List String → List String → Option (List String)
  | wl, [] => some wl
  | wl, a :: rest =>
    if a ∈ current then
      match listRemoveFirst wl a with
      | none => none
      | some wl2 => removePresent current wl2 rest
    else removePresent current wl rest

/-- src/state.py, `StateManager.update_watchlist` (lines 63-78): snapshot
membership, remove-present loop, extend with the whole batch, then trim
with `watchlist[-WATCHLIST_MAX_SIZE:]` when over the bound. -/
def update_watchlist (maxSize : Nat) (watchlist asins : List String) :
    Option (List String) :=
  (removePresent watchlist watchlist asins).map (fun wl2 =>
    let extended := wl2 ++ asins
    if extended.length > maxSize then pySliceLast maxSize extended else extended)

theorem listRemoveFirst_eq_filter (a : String) :
    ∀ wl : List String, wl.Nodup → a ∈ wl →
      listRemoveFirst wl a = some (wl.filter (fun x => decide (x ≠ a))) := by
  intro wl
  induction wl with
  | nil => intro _ h; simp at h
  | cons x xs ih =>
    intro hnd hmem
    by_cases hx : x = a
    · subst hx
      have hnotin : x ∉ xs := (List.nodup_cons.mp hnd).1
      simp [listRemoveFirst]
      refine (List.filter_eq_self.mpr (fun b hb => ?_)).symm
      simp only [Bool.not_eq_true', decide_eq_false_iff_not]
      exact fun hba => hnotin (hba ▸ hb)
    · have hmem' : a ∈ xs := by
        rcases List.mem_cons.mp hmem with h | h
        · exact absurd h.symm hx
        · exact h
      simp [listRemoveFirst, hx, ih (List.nodup_cons.mp hnd).2 hmem']

theorem removePresent_eq (current : List String) :
    ∀ (asins wl : List String), wl.Nodup → asins.Nodup →
      (∀ a ∈ asins, (a ∈ current ↔ a ∈ wl)) →
      removePresent current wl asins =
        some (wl.filter (fun x => decide (x ∉ asins))) := by
  intro asins
  induction asins with
  | nil =>
    intro wl _ _ _
    simp [removePresent]
  | cons a rest ih =>
    intro wl hw ha hmem
    have hrest : rest.Nodup := (List.nodup_cons.mp ha).2
    have hanotin : a ∉ rest := (List.nodup_cons.mp ha).1
    by_cases hc : a ∈ current
    · have hwl : a ∈ wl := (hmem a (List.mem_cons_self a rest)).mp hc
      have hrm := listRemoveFirst_eq_filter a wl hw hwl
      have hrec := ih (wl.filter (fun x => decide (x ≠ a)))
        (hw.filter _) hrest
        (fun b hb => by
          have hba : b ≠ a := fun h => hanotin (h ▸ hb)
          rw [hmem b (List.mem_cons_of_mem a hb)]
          simp [List.mem_filter, hba])
      rw [removePresent, if_pos hc, hrm]
      dsimp only
      rw [hrec]
      congr 1
      rw [List.filter_filter]
      refine List.filter_congr (fun x _ => ?_)
      by_cases h1 : x = a <;> by_cases h2 : x ∈ rest <;> simp [h1, h2]
    · have hwl : a ∉ wl := fun h => hc ((hmem a (List.mem_cons_self a rest)).mpr h)
      have hrec := ih wl hw hrest (fun b hb => hmem b (List.mem_cons_of_mem a hb))
      rw [removePresent, if_neg hc, hrec]
      congr 1
      refine List.filter_congr (fun x hx => ?_)
      have hxa : x ≠ a := fun h => hwl (h ▸ hx)
      by_cases h2 : x ∈ rest <;> simp [hxa, h2]

/-- C7 counterexample: a batch containing the same identifier twice.
`update_watchlist` extends the (empty) watchlist with the whole batch, so
`touch(["a","a"])` on an empty watchlist yields `["a","a"]` — the claimed
no-duplicates invariant fails for batches with repeated identifiers. -/
theorem update_watchlist_counterexample :
    update_watchlist 500 [] ["a", "a"] = some ["a", "a"] ∧
    ¬ (["a", "a"] : List String).Nodup := by
  constructor
  · rfl
  · decide

/-- C7 amended: for a batch of pairwise-distinct identifiers, a
duplicate-free watchlist and a positive maximum, the result keeps the
non-touched entries in order, appends the whole batch at the tail in the
supplied order, and only then trims from the head to the maximum; the
result is duplicate-free of length ≤ the maximum. -/
theorem update_watchlist_spec (m : Nat) (wl asins : List String)
    (hw : wl.Nodup) (ha : asins.Nodup) (hm : 0 < m) :
    update_watchlist m wl asins =
      some ((wl.filter (fun x => decide (x ∉ asins)) ++ asins).drop
        ((wl.filter (fun x => decide (x ∉ asins)) ++ asins).length - m)) ∧
    ((wl.filter (fun x => decide (x ∉ asins)) ++ asins).drop
        ((wl.filter (fun x => decide (x ∉ asins)) ++ asins).length - m)).Nodup ∧
    ((wl.filter (fun x => decide (x ∉ asins)) ++ asins).drop
        ((wl.filter (fun x => decide (x ∉ asins)) ++ asins).length - m)).length ≤ m := by
  have hrp := removePresent_eq wl asins wl hw ha (fun a _ => Iff.rfl)
  have hnd : (wl.filter (fun x => decide (x ∉ asins)) ++ asins).Nodup := by
    refine List.Nodup.append (hw.filter _) ha (List.disjoint_left.mpr ?_)
    intro x hx
    have := (List.mem_filter.mp hx).2
    simpa using this
  refine ⟨?_, ?_, ?_⟩
  · rw [update_watchlist, hrp]
    simp only [Option.map_some']
    set e := wl.filter (fun x => decide (x ∉ asins)) ++ asins with he
    by_cases hlen : e.length > m
    · rw [if_pos hlen, pySliceLast, if_neg (Nat.pos_iff_ne_zero.mp hm)]
    · rw [if_neg hlen]
      have : e.length - m = 0 := by omega
      rw [this, List.drop_zero]
  · exact ((List.drop_sublist _ _).nodup hnd)
  · rw [List.length_drop]
    omega

/-- Witness for the amended C7: the spec's own example — after
`touch(["a","b"])` the list is `["a","b"]`; `touch(["a"])` moves `a` to
the tail, leaving `["b","a"]`. -/
theorem update_watchlist_spec_witness :
    update_watchlist 500 ["a", "b"] ["a"] = some ["b", "a"] := by
  have h := (update_watchlist_spec 500 ["a", "b"] ["a"]
    (by decide) (by decide) (by decide)).1
  rw [h]
  rfl

/-! ### Durable store (src/state.py, StateManager.save / StateManager._load)

`save` serialises the state with `json.dump(self.state.model_dump(), f)`;
`_load` rebuilds it with `SyncState(**json.load(f))`.  The JSON document is
modelled by `JValue`; numbers are exact rationals, mirroring the fact that
Python round-trips ints and floats through JSON losslessly. -/

inductive JValue where
  | jnull
  | jnum (q : ℚ)
  | jstr (s : String)
  | jarr (l : List JValue)
  | jobj (l : List (String × JValue))

/-- Key lookup in a JSON object, first match wins (Python dicts have
unique keys). -/
def jlookup : List (String × JValue) → String → Option JValue
  | [], _ => none
  | (k, v) :: rest, key => if k = key then some v else jlookup rest key

def JValue.asNum : JValue → Option ℚ
  | .jnum q => some q
  | _ => none

def JValue.asStr : JValue → Option String
  | .jstr s => some s
  | _ => none

/-- An integer-valued JSON number (pydantic validates `int` fields). -/
def JValue.asInt : JValue → Option ℤ
  | .jnum q => if q.den = 1 then some q.num else none
  | _ => none

/-- Serialisation `SyncStatus.model_dump()`: field-name-keyed document in declaration
order. -/
def SyncStatus.dump (st : SyncStatus) : JValue :=
  .jobj [("asin", .jstr st.asin),
         ("last_seen_audible_position_ms", .jnum (st.last_seen_audible_position_ms : ℚ)),
         ("last_seen_abs_position_s", .jnum st.last_seen_abs_position_s),
         ("last_change_detected_audible_at", .jnum st.last_change_detected_audible_at),
         ("last_change_detected_abs_at", .jnum st.last_change_detected_abs_at),
         ("last_pushed_to_audible_at", .jnum st.last_pushed_to_audible_at),
         ("last_pushed_to_abs_at", .jnum st.last_pushed_to_abs_at),
         ("last_sync_result", .jstr st.last_sync_result),
         ("error_count", .jnum (st.error_count : ℚ))]

/-- Validation `SyncStatus(**data)`: look up each field by key. -/
def SyncStatus.parse (j : JValue) : Option SyncStatus :=
  match j with
  | .jobj fields => do
    let asin ← (jlookup fields "asin").bind JValue.asStr
    let v1 ← (jlookup fields "last_seen_audible_position_ms").bind JValue.asInt
    let v2 ← (jlookup fields "last_seen_abs_position_s").bind JValue.asNum
    let v3 ← (jlookup fields "last_change_detected_audible_at").bind JValue.asNum
    let v4 ← (jlookup fields "last_change_detected_abs_at").bind JValue.asNum
    let v5 ← (jlookup fields "last_pushed_to_audible_at").bind JValue.asNum
    let v6 ← (jlookup fields "last_pushed_to_abs_at").bind JValue.asNum
    let v7 ← (jlookup fields "last_sync_result").bind JValue.asStr
    let v8 ← (jlookup fields "error_count").bind JValue.asInt
    pure ⟨asin, v1, v2, v3, v4, v5, v6, v7, v8⟩
  | _ => none

/-- Serialisation `SyncState.model_dump()`. -/
def SyncState.dump (st : SyncState) : JValue :=
  .jobj [("watchlist", .jarr (st.watchlist.map JValue.jstr)),
         ("items", .jobj (st.items.map (fun kv => (kv.1, kv.2.dump)))),
         ("last_library_discovery", .jnum st.last_library_discovery),
         ("last_deep_scan", .jnum st.last_deep_scan),
         ("last_successful_sync", .jnum st.last_successful_sync)]

/-- Validate every element of a list, failing when any element fails. -/
def traverseOption (f : α → Option β) : List α → Option (List β)
  | [] => some []
  | x :: xs =>
    match f x with
    | none => none
    | some y => (traverseOption f xs).map (fun ys => y :: ys)

/-- Validation `SyncState(**data)`. -/
def SyncState.parse (j : JValue) : Option SyncState :=
  match j with
  | .jobj fields => do
    let wlj ← jlookup fields "watchlist"
    let wl ← match wlj with
      | .jarr l => traverseOption JValue.asStr l
      | _ => none
    let itj ← jlookup fields "items"
    let items ← match itj with
      | .jobj l =>
          traverseOption (fun kv => (SyncStatus.parse kv.2).map (fun s2 => (kv.1, s2))) l
      | _ => none
    let t1 ← (jlookup fields "last_library_discovery").bind JValue.asNum
    let t2 ← (jlookup fields "last_deep_scan").bind JValue.asNum
    let t3 ← (jlookup fields "last_successful_sync").bind JValue.asNum
    pure ⟨wl, items, t1, t2, t3⟩
  | _ => none

theorem status_parse_dump (st : SyncStatus) : SyncStatus.parse st.dump = some st := rfl

theorem traverseOption_asStr_jstr (l : List String) :
    traverseOption JValue.asStr (l.map JValue.jstr) = some l := by
  induction l with
  | nil => rfl
  | cons x xs ih => simp [traverseOption, JValue.asStr, ih]

theorem traverseOption_parse_dump_items (l : List (String × SyncStatus)) :
    traverseOption (fun kv => (SyncStatus.parse kv.2).map (fun s2 => (kv.1, s2)))
        (l.map (fun kv => (kv.1, kv.2.dump))) = some l := by
  induction l with
  | nil => rfl
  | cons kv rest ih => simp [traverseOption, status_parse_dump, ih]

theorem state_parse_dump (st : SyncState) : SyncState.parse st.dump = some st := by
  have h : SyncState.parse st.dump =
      (traverseOption JValue.asStr (st.watchlist.map JValue.jstr)).bind (fun wl =>
        (traverseOption (fun kv => (SyncStatus.parse kv.2).map (fun s2 => (kv.1, s2)))
            (st.items.map (fun kv => (kv.1, kv.2.dump)))).bind (fun items =>
          some ⟨wl, items, st.last_library_discovery, st.last_deep_scan,
                st.last_successful_sync⟩)) := rfl
  rw [h, traverseOption_asStr_jstr, traverseOption_parse_dump_items]
  rfl

/-- In-memory store: the aggregate plus the `read_only` fail-safe flag. -/
structure StoreState where
  state : SyncState
  read_only : Bool

/-- The three possible fates of one save attempt, abstracting the file
system: the non-blocking `flock` fails (`BlockingIOError`), the
open/write/fsync/rename sequence raises `OSError`, or everything
succeeds. -/
inductive SaveOutcome where
  | lockBusy
  | osError
  | ok

/-- src/state.py, `StateManager.save` (lines 33-61): no-op when the
persistence flag is off or the store is read-only; a busy lock skips the
cycle; an `OSError` flips the store permanently read-only; success writes
the dumped state.  Returns the new store state and the file content
written, if any. -/
def StateManager.save (persistEnabled : Bool) (st : StoreState) (outcome : SaveOutcome) :
    StoreState × Option JValue :=
  if !persistEnabled || st.read_only then (st, none)
  else
    match outcome with
    | .lockBusy => (st, none)
    | .osError => ({ st with read_only := true }, none)
    | .ok => (st, some st.state.dump)

/-- src/state.py, `StateManager._load` (lines 21-31): missing file →
fresh empty state; unparsable content → fresh empty state; otherwise the
parsed state. -/
def StateManager.load (file : Option JValue) : SyncState :=
  match file with
  | none => SyncState.empty
  | some j =>
    match SyncState.parse j with
    | some s2 => s2
    | none => SyncState.empty

/-- C8: a successful `save()` writes the dumped snapshot, and `load()` on
that content on a fresh instance reproduces the same `SyncState` — the
same watchlist order, the same identifier→status mapping with equal
per-item fields, and the same three aggregate timestamps. -/
theorem save_load_roundtrip (s : SyncState) :
    (StateManager.save true ⟨s, false⟩ .ok).2 = some s.dump ∧
    StateManager.load (some s.dump) = s := by
  refine ⟨rfl, ?_⟩
  simp [StateManager.load, state_parse_dump]

/-- C9: `save()` error semantics.  In every branch the in-memory state is
unchanged; with persistence off `save` is a pure no-op; a busy lock skips
the cycle leaving `read_only` false (so the next cycle retries); an
OS-level write/rename error flips the store permanently read-only; and a
read-only store ignores every further `save`. -/
theorem save_error_semantics :
    (∀ (e : Bool) (st : StoreState) (o : SaveOutcome),
      ((StateManager.save e st o).1).state = st.state) ∧
    (∀ (st : StoreState) (o : SaveOutcome),
      StateManager.save false st o = (st, none)) ∧
    (∀ s : SyncState,
      StateManager.save true ⟨s, false⟩ .lockBusy = (⟨s, false⟩, none)) ∧
    (∀ s : SyncState,
      StateManager.save true ⟨s, false⟩ .osError = (⟨s, true⟩, none)) ∧
    (∀ (e : Bool) (s : SyncState) (o : SaveOutcome),
      StateManager.save e ⟨s, true⟩ o = (⟨s, true⟩, none)) := by
  refine ⟨?_, ?_, ?_, ?_, ?_⟩
  · intro e st o
    unfold StateManager.save
    (repeat' split) <;> rfl
  · intro st o
    unfold StateManager.save
    simp
  · intro s
    rfl
  · intro s
    rfl
  · intro e s o
    unfold StateManager.save
    rcases e <;> rcases o <;> rfl

end AbsSync
